import Mathlib

/-!
Shallow embedding of the Prometheus demo application (src/sample-app/app.py):
the metric instrument state, the request-timing middleware hooks, and the
endpoint handlers.  Machine floats (random draws, psutil percentages, clock
readings) are modelled as rationals; randomness and clock readings are passed
in explicitly as arguments so every handler is a pure function of its inputs
and the current instrument state.
-/

namespace SampleApp

/-- The process-wide instrument state: the label-keyed series of the six
metrics declared at module top level in app.py
(REQUEST_COUNT, REQUEST_LATENCY, ACTIVE_USERS, SYSTEM_CPU, SYSTEM_MEMORY,
ERROR_COUNT). -/
structure MetricsState where
  /-- app_requests_total, labeled by (method, endpoint, status_code). -/
  requestCount : String → String → Nat → Nat
  /-- app_request_duration_seconds observations, labeled by endpoint. -/
  latency : String → List ℚ
  /-- app_active_users gauge. -/
  activeUsers : ℤ
  /-- app_system_cpu_percent gauge. -/
  systemCpu : ℚ
  /-- app_system_memory_percent gauge. -/
  systemMemory : ℚ
  /-- app_errors_total, labeled by error_type. -/
  errorCount : String → Nat

/-- ERROR_COUNT.labels(error_type=label).inc() on the error-count series. -/
def bumpError (f : String → Nat) (label : String) : String → Nat :=
  fun l => if l = label then f l + 1 else f l

/-- An all-zero instrument state (fresh registry). -/
def zeroState : MetricsState :=
  { requestCount := fun _ _ _ => 0
    latency := fun _ => []
    activeUsers := 0
    systemCpu := 0
    systemMemory := 0
    errorCount := fun _ => 0 }

/-- Python's `flask.request.endpoint or 'unknown'`: None and the empty string
are falsy, so both fall back to the literal "unknown". -/
def endpointLabel : Option String → String
  | none => "unknown"
  | some e => if e = "" then "unknown" else e

/-- after_request (app.py lines 28-47): computes the request duration from the
start-time reading stored by before_request and the completion-time reading
(both from time.time()), increments REQUEST_COUNT for
(method, endpoint-or-unknown, status_code), and observes the duration on
REQUEST_LATENCY for endpoint-or-unknown.  It touches no other instrument. -/
def after_request (method : String) (endpoint : Option String) (status : Nat)
    (startTime now : ℚ) (s : MetricsState) : MetricsState :=
  let dur := now - startTime
  let ep := endpointLabel endpoint
  let s1 := { s with
    requestCount := fun m e c =>
      if m = method ∧ e = ep ∧ c = status then s.requestCount m e c + 1
      else s.requestCount m e c }
  { s1 with
    latency := fun e => if e = ep then s1.latency e ++ [dur] else s1.latency e }

/-- Body of a /health response. -/
inductive HealthBody where
  | ok (status : String) (cpu mem : ℚ) (warnings : Option (List String))
  | unhealthy (error : String)
deriving DecidableEq

/-- health (app.py lines 74-103): the stat-source reading is passed in as an
Except value (ok carries (cpu_percent, memory.percent); error carries the
exception message).  On success: status "degraded" with one warning per
exceeded threshold when cpu > 90 or mem > 90, else "healthy" with no warnings
key.  On failure: ERROR_COUNT labeled "health_check" is incremented and the
body is status "unhealthy" with the message, HTTP 500. -/
def health (stat : Except String (ℚ × ℚ)) (s : MetricsState) :
    (HealthBody × Nat) × MetricsState :=
  match stat with
  | .ok (cpu, mem) =>
    if cpu > 90 ∨ mem > 90 then
      let warnings :=
        (if cpu > 90 then ["High CPU usage"] else []) ++
        (if mem > 90 then ["High memory usage"] else [])
      (((.ok "degraded" cpu mem (some warnings)), 200), s)
    else (((.ok "healthy" cpu mem none), 200), s)
  | .error e =>
    (((.unhealthy e), 500), { s with errorCount := bumpError s.errorCount "health_check" })

/-- Body of a /simulate-error response. -/
inductive ErrorSimBody where
  | err (msg : String)
  | success (value : ℤ)
deriving DecidableEq

/-- simulate_error (app.py lines 129-144): u is the one random.random() draw
in [0,1); v is the random.randint(1, 100) draw used only on the success
branch.  u < 0.2: 500 and ERROR_COUNT "server_error" incremented;
else u < 0.3: 400 and ERROR_COUNT "client_error" incremented;
else: 200 success carrying v, state untouched. -/
def simulate_error (u : ℚ) (v : ℤ) (s : MetricsState) :
    (ErrorSimBody × Nat) × MetricsState :=
  if u < 1/5 then
    (((.err "Internal server error"), 500),
      { s with errorCount := bumpError s.errorCount "server_error" })
  else if u < 3/10 then
    (((.err "Bad request"), 400),
      { s with errorCount := bumpError s.errorCount "client_error" })
  else
    (((.success v), 200), s)

/-- A randint oracle: r lo hi stands for random.randint(lo, hi). -/
def RandOk (r : ℤ → ℤ → ℤ) : Prop :=
  ∀ lo hi : ℤ, lo ≤ hi → lo ≤ r lo hi ∧ r lo hi ≤ hi

/-- Body of a /user-activity response. -/
structure UserActivityBody where
  active_users : ℤ
  hour : ℤ
deriving DecidableEq

/-- user_activity (app.py lines 146-163): hour is time.localtime().tm_hour;
business hours (9 ≤ hour ≤ 17) draw randint(30, 80), otherwise
randint(5, 25); ACTIVE_USERS is set to the draw and the body returns the
draw together with the hour. -/
def user_activity (hour : ℤ) (r : ℤ → ℤ → ℤ) (s : MetricsState) :
    (UserActivityBody × Nat) × MetricsState :=
  let users := if 9 ≤ hour ∧ hour ≤ 17 then r 30 80 else r 5 25
  ((⟨users, hour⟩, 200), { s with activeUsers := users })

/-- The busy-wait loop of simulate_load (app.py lines 112-114):
`while time.time() - start_time < duration` re-reads the clock each
iteration; trace is the successive time.time() readings.  Returns the first
reading at which the loop condition fails (i.e. reading - start ≥ d), or
none if the trace is exhausted first. -/
def spinExit (start d : ℚ) : List ℚ → Option ℚ
  | [] => none
  | t :: ts => if t - start < d then spinExit start d ts else some t

/-- Body of a /simulate-load response; duration is the numeric value the
handler puts in the "duration" field (formatting to two decimals aside). -/
structure LoadBody where
  message : String
  duration : ℚ
deriving DecidableEq

/-- simulate_load (app.py lines 105-127): d is the random.uniform(0.5, 3.0)
draw, start the time.time() reading before the loop and trace the readings
inside it; r the randint oracle.  The loop spins until a reading is at least
start + d, ACTIVE_USERS is set to randint(20, 100), and the body reports the
drawn d in its "duration" field.  none when the trace never reaches
start + d (the loop would still be running). -/
def simulate_load (d : ℚ) (r : ℤ → ℤ → ℤ) (start : ℚ) (trace : List ℚ)
    (s : MetricsState) : Option ((LoadBody × Nat) × MetricsState) :=
  match spinExit start d trace with
  | none => none
  | some _ =>
    some ((⟨"Load simulation completed", d⟩, 200),
      { s with activeUsers := r 20 100 })

/-- The duration actually elapsed in the busy-wait loop: exit reading minus
start reading. -/
def spinElapsed (start d : ℚ) (trace : List ℚ) : Option ℚ :=
  (spinExit start d trace).map (fun t => t - start)

/-- metrics (app.py lines 165-177): the two stat reads are passed in as
Except values; serialize stands for generate_latest() as a function of the
instrument state.  Success: SYSTEM_CPU then SYSTEM_MEMORY are set and the
serialization of the updated state is returned with 200.  Any failure:
ERROR_COUNT labeled "metrics_error" is incremented and the fallback body
"# Metrics unavailable\n" is returned with 500. -/
def metrics (cpu mem : Except String ℚ) (serialize : MetricsState → String)
    (s : MetricsState) : (String × Nat) × MetricsState :=
  match cpu with
  | .error _ =>
    (("# Metrics unavailable\n", 500),
      { s with errorCount := bumpError s.errorCount "metrics_error" })
  | .ok c =>
    let s1 := { s with systemCpu := c }
    match mem with
    | .error _ =>
      (("# Metrics unavailable\n", 500),
        { s1 with errorCount := bumpError s1.errorCount "metrics_error" })
    | .ok m =>
      let s2 := { s1 with systemMemory := m }
      ((serialize s2, 200), s2)

/-- Status string of a /health body. -/
def healthStatus : HealthBody → String
  | .ok st _ _ _ => st
  | .unhealthy _ => "unhealthy"

/-- Warnings list of a /health body (none when the key is absent). -/
def healthWarnings : HealthBody → Option (List String)
  | .ok _ _ _ w => w
  | .unhealthy _ => none

/-- C2: for every invocation of /simulate-error with uniform draw u in [0,1)
and randint(1,100) draw v: if u < 0.2 the response is 500 and the
"server_error" series is incremented by 1; else if u < 0.3 the response is
400 and the "client_error" series is incremented by 1; else the response is
a 200 success carrying v with 1 ≤ v ≤ 100 and the state is unchanged. -/
theorem simulate_error_branches (u : ℚ) (v : ℤ) (s : MetricsState)
    (hu0 : 0 ≤ u) (hu1 : u < 1) (hv1 : 1 ≤ v) (hv2 : v ≤ 100) :
    (u < 1/5 →
      (simulate_error u v s).1 = ((.err "Internal server error"), 500) ∧
      (simulate_error u v s).2.errorCount "server_error" =
        s.errorCount "server_error" + 1) ∧
    (¬ u < 1/5 → u < 3/10 →
      (simulate_error u v s).1 = ((.err "Bad request"), 400) ∧
      (simulate_error u v s).2.errorCount "client_error" =
        s.errorCount "client_error" + 1) ∧
    (¬ u < 3/10 →
      simulate_error u v s = (((.success v), 200), s) ∧ 1 ≤ v ∧ v ≤ 100) := by
  refine ⟨fun h1 => ?_, fun h1 h2 => ?_, fun h2 => ?_⟩
  · simp only [simulate_error]
    rw [if_pos h1]
    simp [bumpError]
  · simp only [simulate_error]
    rw [if_neg h1, if_pos h2]
    simp [bumpError]
  · have h1 : ¬ u < 1/5 := fun h => h2 (h.trans_le (by norm_num))
    simp only [simulate_error]
    rw [if_neg h1, if_neg h2]
    exact ⟨rfl, hv1, hv2⟩

/-- C2 witness: at u = 1/10 the server-error branch fires. -/
theorem simulate_error_branches_witness :
    (simulate_error (1/10) 7 zeroState).1 = ((.err "Internal server error"), 500) ∧
    (simulate_error (1/10) 7 zeroState).2.errorCount "server_error" =
      zeroState.errorCount "server_error" + 1 :=
  (simulate_error_branches (1/10) 7 zeroState (by norm_num) (by norm_num)
    (by norm_num) (by norm_num)).1 (by norm_num)

/-- C3: for every successful stat reading the /health status is "degraded"
exactly when cpu > 90 or mem > 90 and "healthy" otherwise; when healthy
there is no warnings list; "High CPU usage" appears in the warnings iff
cpu > 90 and "High memory usage" iff mem > 90; and at cpu = 95, mem = 50
the warnings are exactly ["High CPU usage"]. -/
theorem health_ok_spec (cpu mem : ℚ) (s : MetricsState) :
    (healthStatus (health (.ok (cpu, mem)) s).1.1 =
      if cpu > 90 ∨ mem > 90 then "degraded" else "healthy") ∧
    (healthStatus (health (.ok (cpu, mem)) s).1.1 = "healthy" →
      healthWarnings (health (.ok (cpu, mem)) s).1.1 = none) ∧
    ("High CPU usage" ∈ (healthWarnings (health (.ok (cpu, mem)) s).1.1).getD []
      ↔ cpu > 90) ∧
    ("High memory usage" ∈ (healthWarnings (health (.ok (cpu, mem)) s).1.1).getD []
      ↔ mem > 90) ∧
    (health (.ok (95, 50)) s).1 =
      ((.ok "degraded" 95 50 (some ["High CPU usage"])), 200) ∧
    (health (.ok (95, 50)) s).2 = s := by
  by_cases hc : cpu > 90 <;> by_cases hm : mem > 90 <;>
    simp [health, healthStatus, healthWarnings, hc, hm] <;>
    norm_num

/-- C3 witness: at cpu = 95, mem = 50 the status is "degraded". -/
theorem health_ok_spec_witness :
    healthStatus (health (.ok (95, 50)) zeroState).1.1 =
      if (95 : ℚ) > 90 ∨ (50 : ℚ) > 90 then "degraded" else "healthy" :=
  (health_ok_spec 95 50 zeroState).1

/-- C4: when the stat source fails, /health responds with the unhealthy body
carrying the failure message and HTTP 500, increments exactly the
"health_check" error series, and changes no other instrument. -/
theorem health_failure_spec (msg : String) (s : MetricsState) :
    (health (.error msg) s).1 = ((.unhealthy msg), 500) ∧
    (health (.error msg) s).2.errorCount "health_check" =
      s.errorCount "health_check" + 1 ∧
    (∀ l, l ≠ "health_check" → (health (.error msg) s).2.errorCount l = s.errorCount l) ∧
    (health (.error msg) s).2.requestCount = s.requestCount ∧
    (health (.error msg) s).2.latency = s.latency ∧
    (health (.error msg) s).2.activeUsers = s.activeUsers ∧
    (health (.error msg) s).2.systemCpu = s.systemCpu ∧
    (health (.error msg) s).2.systemMemory = s.systemMemory := by
  refine ⟨rfl, by simp [health, bumpError], fun l hl => ?_, rfl, rfl, rfl, rfl, rfl⟩
  simp [health, bumpError, hl]

/-- C4 witness: concrete failure "boom" on the fresh state. -/
theorem health_failure_spec_witness :
    (health (.error "boom") zeroState).1 = ((.unhealthy "boom"), 500) ∧
    (health (.error "boom") zeroState).2.errorCount "health_check" =
      zeroState.errorCount "health_check" + 1 :=
  ⟨(health_failure_spec "boom" zeroState).1,
    (health_failure_spec "boom" zeroState).2.1⟩

/-- C9: a completed request whose path matched no route (endpoint is none) is
recorded by the middleware under the literal endpoint label "unknown": the
request-count series for (method, "unknown", status) is incremented and the
latency observation is appended under "unknown". -/
theorem after_request_unknown_endpoint (method : String) (status : Nat)
    (t0 t1 : ℚ) (s : MetricsState) :
    (after_request method none status t0 t1 s).requestCount method "unknown" status =
      s.requestCount method "unknown" status + 1 ∧
    (after_request method none status t0 t1 s).latency "unknown" =
      s.latency "unknown" ++ [t1 - t0] := by
  simp [after_request, endpointLabel]

/-- C10: on the success branch of /simulate-error (draw ≥ 0.3) the handler
mutates no instrument: the final state is exactly the initial state, in
particular every error series and the active-users Gauge are unchanged. -/
theorem simulate_error_success_frame (u : ℚ) (v : ℤ) (s : MetricsState)
    (h : 3/10 ≤ u) :
    (simulate_error u v s).2 = s ∧
    (simulate_error u v s).2.errorCount = s.errorCount ∧
    (simulate_error u v s).2.activeUsers = s.activeUsers := by
  have h2 : ¬ u < 3/10 := not_lt.mpr h
  have h1 : ¬ u < 1/5 := fun hlt => h2 (hlt.trans_le (by norm_num))
  simp only [simulate_error]
  rw [if_neg h1, if_neg h2]
  exact ⟨rfl, rfl, rfl⟩

/-- C10 witness: at u = 1/2 the state is returned untouched. -/
theorem simulate_error_success_frame_witness :
    (simulate_error (1/2) 7 zeroState).2 = zeroState :=
  (simulate_error_success_frame (1/2) 7 zeroState (by norm_num)).1

/-- C1 counterexample: when the middleware runs with the synthesized 500
status after a handler fault, no error-count series is incremented — the
claim that the error Counter is incremented exactly once by the middleware
is false already on the fresh state. -/
theorem after_request_no_error_increment :
    ¬ ∃ label, (after_request "GET" (some "user_activity") 500 0 1
        zeroState).errorCount label =
      zeroState.errorCount label + 1 := by
  rintro ⟨l, hl⟩
  simp [after_request, zeroState] at hl

/-- C1 amended: when the framework finalizes a faulted request, it runs
after_request with the synthesized 500 status; the middleware then
increments the request-count series for (method, endpoint, 500) exactly
once and appends exactly one latency observation, but increments no error
series (the error-count function is returned unchanged). -/
theorem after_request_fault_finalization (method : String)
    (endpoint : Option String) (t0 t1 : ℚ) (s : MetricsState) :
    (after_request method endpoint 500 t0 t1 s).requestCount method
        (endpointLabel endpoint) 500 =
      s.requestCount method (endpointLabel endpoint) 500 + 1 ∧
    (after_request method endpoint 500 t0 t1 s).latency (endpointLabel endpoint) =
      s.latency (endpointLabel endpoint) ++ [t1 - t0] ∧
    (after_request method endpoint 500 t0 t1 s).errorCount = s.errorCount := by
  refine ⟨?_, ?_, rfl⟩ <;> simp [after_request]

/-- C5 helper: the busy-wait loop only exits at a clock reading t with
t - start ≥ d. -/
theorem spinExit_ge (start d : ℚ) (trace : List ℚ) (t : ℚ)
    (h : spinExit start d trace = some t) : d ≤ t - start := by
  induction trace with
  | nil => simp [spinExit] at h
  | cons a ts ih =>
    by_cases hc : a - start < d
    · exact ih (by simpa [spinExit, hc] using h)
    · rw [spinExit, if_neg hc] at h
      cases h
      exact not_lt.mp hc

/-- C5 counterexample: with drawn duration 1, start reading 0 and a single
loop clock reading of 2, the loop exits with actual elapsed time 2, while
the response's duration field reports the drawn value 1 — the response does
not report the duration actually elapsed. -/
theorem simulate_load_reports_draw_not_elapsed :
    Option.map (fun out => out.1.1.duration)
        (simulate_load 1 (fun lo _ => lo) 0 [2] zeroState) = some 1 ∧
    spinElapsed 0 1 [2] = some 2 ∧
    (1 : ℚ) ≠ 2 := by
  refine ⟨?_, ?_, by norm_num⟩ <;> simp [simulate_load, spinExit, spinElapsed]

/-- C5 amended: with drawn duration d in [0.5, 3.0], the busy-wait loop
exits only once the elapsed time t - start is at least d, the active-users
Gauge is set to randint(20, 100) (a value in [20, 100]), and the response's
duration field reports the drawn d — a lower bound on, but in general not
equal to, the duration actually elapsed. -/
theorem simulate_load_spec (d : ℚ) (r : ℤ → ℤ → ℤ) (start : ℚ)
    (trace : List ℚ) (s : MetricsState) (t : ℚ) (hr : RandOk r)
    (hd1 : 1/2 ≤ d) (hd2 : d ≤ 3) (ht : spinExit start d trace = some t) :
    simulate_load d r start trace s =
      some ((⟨"Load simulation completed", d⟩, 200),
        { s with activeUsers := r 20 100 }) ∧
    spinElapsed start d trace = some (t - start) ∧
    d ≤ t - start ∧
    20 ≤ r 20 100 ∧ r 20 100 ≤ 100 := by
  obtain ⟨hlo, hhi⟩ := hr 20 100 (by norm_num)
  exact ⟨by simp [simulate_load, ht], by simp [spinElapsed, ht],
    spinExit_ge start d trace t ht, hlo, hhi⟩

/-- C5 amended witness: drawn duration 1, start 0, clock readings [0.6, 2]. -/
theorem simulate_load_spec_witness :
    simulate_load 1 (fun lo _ => lo) 0 [(6 : ℚ)/10, 2] zeroState =
      some ((⟨"Load simulation completed", 1⟩, 200),
        { zeroState with activeUsers := 20 }) ∧
    (1 : ℚ) ≤ 2 - 0 :=
  ⟨(simulate_load_spec 1 (fun lo _ => lo) 0 [(6 : ℚ)/10, 2] zeroState 2
      (fun lo hi h => ⟨le_refl lo, h⟩) (by norm_num) (by norm_num)
      (by norm_num [spinExit])).1,
    (simulate_load_spec 1 (fun lo _ => lo) 0 [(6 : ℚ)/10, 2] zeroState 2
      (fun lo hi h => ⟨le_refl lo, h⟩) (by norm_num) (by norm_num)
      (by norm_num [spinExit])).2.2.1⟩

/-- C6: /user-activity with local hour h draws users in [30, 80] when
9 ≤ h ≤ 17 and in [5, 25] otherwise, sets the active-users Gauge to the
drawn value, and returns both the drawn value and the hour. -/
theorem user_activity_spec (hour : ℤ) (r : ℤ → ℤ → ℤ) (s : MetricsState)
    (hr : RandOk r) :
    ((user_activity hour r s).1.1.hour = hour) ∧
    ((user_activity hour r s).1.2 = 200) ∧
    ((user_activity hour r s).2.activeUsers =
      (user_activity hour r s).1.1.active_users) ∧
    (9 ≤ hour ∧ hour ≤ 17 →
      30 ≤ (user_activity hour r s).1.1.active_users ∧
      (user_activity hour r s).1.1.active_users ≤ 80) ∧
    (¬ (9 ≤ hour ∧ hour ≤ 17) →
      5 ≤ (user_activity hour r s).1.1.active_users ∧
      (user_activity hour r s).1.1.active_users ≤ 25) := by
  by_cases h : 9 ≤ hour ∧ hour ≤ 17
  · refine ⟨rfl, rfl, rfl, fun _ => ?_, fun hn => absurd h hn⟩
    simpa [user_activity, h] using hr 30 80 (by norm_num)
  · refine ⟨rfl, rfl, rfl, fun hy => absurd hy h, fun _ => ?_⟩
    simpa [user_activity, h] using hr 5 25 (by norm_num)

/-- C6 witness: at hour 12 with the lower-endpoint oracle, users = 30 lies
in the business-hours range. -/
theorem user_activity_spec_witness :
    30 ≤ (user_activity 12 (fun lo _ => lo) zeroState).1.1.active_users ∧
    (user_activity 12 (fun lo _ => lo) zeroState).1.1.active_users ≤ 80 :=
  (user_activity_spec 12 (fun lo _ => lo) zeroState
    (fun lo hi h => ⟨le_refl lo, h⟩)).2.2.2.1 ⟨by norm_num, by norm_num⟩

/-- C7: /metrics on the success path first sets the system CPU and memory
Gauges from the stat source and then returns the serialization of the
updated registry state with 200; when either stat read fails it increments
the "metrics_error" series and returns the fallback body with 500. -/
theorem metrics_spec (c m : ℚ) (e : String) (serialize : MetricsState → String)
    (s : MetricsState) :
    (metrics (.ok c) (.ok m) serialize s =
      ((serialize { s with systemCpu := c, systemMemory := m }, 200),
        { s with systemCpu := c, systemMemory := m })) ∧
    ((metrics (.error e) (.ok m) serialize s).1 = ("# Metrics unavailable\n", 500) ∧
      (metrics (.error e) (.ok m) serialize s).2.errorCount "metrics_error" =
        s.errorCount "metrics_error" + 1) ∧
    ((metrics (.ok c) (.error e) serialize s).1 = ("# Metrics unavailable\n", 500) ∧
      (metrics (.ok c) (.error e) serialize s).2.errorCount "metrics_error" =
        s.errorCount "metrics_error" + 1) := by
  refine ⟨rfl, ⟨rfl, ?_⟩, ⟨rfl, ?_⟩⟩ <;> simp [metrics, bumpError]

/-- C8: the middleware computes the request duration as the difference of
two time.time() wall-clock readings; under a backwards clock adjustment
(start reading 100, completion reading 99) it records the negative value -1
into the latency Histogram, contradicting elapsed ≥ 0. -/
theorem after_request_negative_duration :
    (after_request "GET" (some "health") 200 100 99 zeroState).latency "health" =
      [(-1 : ℚ)] ∧
    ((-1 : ℚ) < 0) := by
  constructor
  · simp [after_request, endpointLabel, zeroState]
    norm_num
  · norm_num

end SampleApp
